import Mathlib

/-!
Shallow embedding of the xen_hypervisor GPU-proxy core:
the IDM ring transport (src/idm-protocol/idm.h, transport.c),
the driver-side handle table (src/gpu-proxy/handle_table.c),
the driver dispatcher handlers (src/gpu-proxy/handlers.c), and
the user-side correlator and CUDA shim (src/gpu-proxy/libvgpu/libvgpu.c).

Machine integers are modelled as Nat with explicit reduction modulo
2^32 (uint32_t) or 2^64 (uint64_t) wherever the C code can overflow.
Pointers are modelled as Nat (0 is NULL).  malloc is assumed to
succeed (its failure branches return early without touching the state
being reasoned about).  The pthread mutexes serialise every operation
in the C code, so each operation is modelled as a pure state
transformer.
-/

/-- 2^32, the modulus of uint32_t arithmetic. -/
def U32 : Nat := 4294967296

/-- 2^64, the modulus of uint64_t arithmetic. -/
def U64 : Nat := 18446744073709551616

/-- Unsigned 32-bit subtraction a - b (two's-complement wraparound). -/
def u32sub (a b : Nat) : Nat := (a + U32 - b % U32) % U32

/-- Unsigned 64-bit subtraction a - b (two's-complement wraparound). -/
def u64sub (a b : Nat) : Nat := (a + U64 - b % U64) % U64

/- ==========================================================================
   Wire format (src/idm-protocol/idm.h)
   ========================================================================== -/

/-- IDM_MAGIC, the sentinel 0x49444D00. -/
def IDM_MAGIC : Nat := 0x49444D00

/-- IDM_VERSION = (1 << 8) | 0. -/
def IDM_VERSION : Nat := 256

/-- IDM_MAX_PAYLOAD_SIZE = 4 MiB. -/
def IDM_MAX_PAYLOAD_SIZE : Nat := 4194304

/-- IDM_RING_SIZE. -/
def IDM_RING_SIZE : Nat := 32

/-- sizeof(struct idm_header) = 4+2+2+4+4+8+4+4 bytes, packed. -/
def IDM_HEADER_SIZE : Nat := 32

/-- sizeof(struct idm_ring_entry): one page. -/
def IDM_RING_ENTRY_SIZE : Nat := 4096

/-- Error codes from enum idm_error. -/
def IDM_ERROR_INVALID_MESSAGE : Nat := 1
def IDM_ERROR_INVALID_HANDLE : Nat := 2
def IDM_ERROR_PERMISSION_DENIED : Nat := 3
def IDM_ERROR_OUT_OF_MEMORY : Nat := 4
def IDM_ERROR_INVALID_SIZE : Nat := 5
def IDM_ERROR_CUDA_ERROR : Nat := 8

/-- CUDA result codes from libvgpu/cuda.h. -/
def CUDA_SUCCESS : Nat := 0
def CUDA_ERROR_INVALID_VALUE : Nat := 1
def CUDA_ERROR_OUT_OF_MEMORY : Nat := 2
def CUDA_ERROR_NOT_INITIALIZED : Nat := 3
def CUDA_ERROR_INVALID_HANDLE : Nat := 400

/-- errno values used by transport.c. -/
def EAGAIN : Int := 11
def EINVAL : Int := 22
def ENOSPC : Int := 28

/-- struct idm_header.  Every field is a machine integer of the width
noted in idm.h; values are kept below their modulus by construction. -/
structure IdmHeader where
  magic : Nat
  version : Nat
  msg_type : Nat
  src_zone : Nat
  dst_zone : Nat
  seq_num : Nat
  payload_len : Nat
  reserved : Nat
deriving DecidableEq, Inhabited

/-- struct idm_message: header followed by payload bytes. -/
structure IdmMessage where
  header : IdmHeader
  payload : List Nat
deriving DecidableEq, Inhabited

/-- idm_message_size: header size plus the header's payload_len field. -/
def idm_message_size (m : IdmMessage) : Nat :=
  IDM_HEADER_SIZE + m.header.payload_len

/-- idm_message_valid (idm.h lines 226-231). -/
def idm_message_valid (m : IdmMessage) : Prop :=
  m.header.magic = IDM_MAGIC ∧ m.header.version = IDM_VERSION ∧
  m.header.payload_len ≤ IDM_MAX_PAYLOAD_SIZE

instance (m : IdmMessage) : Decidable (idm_message_valid m) := by
  unfold idm_message_valid; infer_instance

/-- The in-memory message buffer holds payload_len payload bytes after the
header; memcpy of idm_message_size bytes moves exactly this much. -/
def idm_message_wf (m : IdmMessage) : Prop :=
  m.payload.length = m.header.payload_len

instance (m : IdmMessage) : Decidable (idm_message_wf m) := by
  unfold idm_message_wf; infer_instance

/-- The bytes a memcpy of idm_message_size bytes takes from a message
buffer: the header plus the first payload_len payload bytes. -/
def storedMessage (m : IdmMessage) : IdmMessage :=
  ⟨m.header, m.payload.take m.header.payload_len⟩

/- ==========================================================================
   Ring transport (src/idm-protocol/transport.c)
   ========================================================================== -/

/-- struct idm_ring: producer/consumer are uint32_t indices, entries is
the fixed slot array (each slot one message).
The wake semaphores only gate when recv runs; they do not affect the
ring state, so they are not part of the model. -/
structure IdmRing where
  producer : Nat
  consumer : Nat
  entries : List IdmMessage
deriving DecidableEq, Inhabited

/-- The zero-initialized ring the server memsets at startup. -/
def initRing : IdmRing :=
  { producer := 0, consumer := 0,
    entries := List.replicate IDM_RING_SIZE default }

/-- idm_send (transport.c lines 324-374).  Returns (0, new ring) on
success, (-EINVAL, unchanged ring) on an invalid or oversized message,
(-ENOSPC, unchanged ring) when the ring is full. -/
def idm_send (ring : IdmRing) (msg : IdmMessage) : Int × IdmRing :=
  if ¬ idm_message_valid msg then (-EINVAL, ring)
  else if IDM_RING_ENTRY_SIZE < idm_message_size msg then (-EINVAL, ring)
  else
    let prod := ring.producer
    let cons := ring.consumer
    if IDM_RING_SIZE ≤ u32sub prod cons then (-ENOSPC, ring)
    else
      (0, { ring with
            entries := ring.entries.set (prod % IDM_RING_SIZE) (storedMessage msg),
            producer := (prod + 1) % U32 })

/-- idm_recv (transport.c lines 379-483), the part after the wake wait:
read indices, bail with -EAGAIN when empty, validate the slot
(advancing the consumer past an invalid slot with -EINVAL), otherwise
copy the message out and advance the consumer. -/
def idm_recv (ring : IdmRing) : Int × Option IdmMessage × IdmRing :=
  let cons := ring.consumer
  let prod := ring.producer
  if cons = prod then (-EAGAIN, none, ring)
  else
    let ring_msg := ring.entries.getD (cons % IDM_RING_SIZE) default
    if ¬ idm_message_valid ring_msg then
      (-EINVAL, none, { ring with consumer := (cons + 1) % U32 })
    else
      (0, some (storedMessage ring_msg), { ring with consumer := (cons + 1) % U32 })

/-- Ring states reachable from the zero-initialized ring by any
interleaving of sends and receives. -/
inductive RingReachable : IdmRing → Prop where
  | init : RingReachable initRing
  | send (msg : IdmMessage) {r : IdmRing} :
      RingReachable r → RingReachable (idm_send r msg).2
  | recv {r : IdmRing} :
      RingReachable r → RingReachable (idm_recv r).2.2

/-- The ring invariant: indices are uint32 values, the unsigned
distance producer - consumer never exceeds IDM_RING_SIZE, and the slot
array has its fixed length. -/
def RingInv (r : IdmRing) : Prop :=
  r.producer < U32 ∧ r.consumer < U32 ∧
  u32sub r.producer r.consumer ≤ IDM_RING_SIZE ∧
  r.entries.length = IDM_RING_SIZE

/- ==========================================================================
   Handle table (src/gpu-proxy/handle_table.c)
   ========================================================================== -/

/-- struct handle_entry (without the intrusive chain pointer). -/
structure HandleEntry where
  handle : Nat
  zone_id : Nat
  ptr : Nat
  size : Nat
deriving DecidableEq, Inhabited

/-- The handle table state.  The C code is a chaining hash table whose
buckets are keyed by handle % 1024 with insertion at the bucket head;
since lookup and removal scan only the bucket of the queried handle in
insertion order, a single head-insertion list in which we scan for the
first matching handle is observationally identical, and is used here. -/
structure HandleTable where
  entries : List HandleEntry
  next_handle : Nat
  total_handles : Nat
  total_memory : Nat
deriving DecidableEq, Inhabited

/-- handle_table_init: empty table, next_handle = 1, zero counters. -/
def handle_table_init : HandleTable :=
  { entries := [], next_handle := 1, total_handles := 0, total_memory := 0 }

/-- The first entry whose handle field matches (the C bucket scan). -/
def findEntry : List HandleEntry → Nat → Option HandleEntry
  | [], _ => none
  | e :: rest, h => if e.handle = h then some e else findEntry rest h

/-- Unlink the first entry whose handle field matches. -/
def eraseFirst : List HandleEntry → Nat → List HandleEntry
  | [], _ => []
  | e :: rest, h => if e.handle = h then rest else e :: eraseFirst rest h

/-- handle_table_insert (handle_table.c lines 55-86): refuse a null
pointer, otherwise allocate handle = next_handle (uint64 increment),
push the entry on the bucket head and bump the counters.  Returns the
handle (0 on failure) and the new table. -/
def handle_table_insert (t : HandleTable) (zone_id ptr size : Nat) :
    Nat × HandleTable :=
  if ptr = 0 then (0, t)
  else
    let h := t.next_handle
    (h, { entries := ⟨h, zone_id, ptr, size⟩ :: t.entries,
          next_handle := (t.next_handle + 1) % U64,
          total_handles := (t.total_handles + 1) % U64,
          total_memory := (t.total_memory + size) % U64 })

/-- handle_table_lookup (handle_table.c lines 91-121): scan for the
handle; on an ownership mismatch return NULL (logging only to the
driver-local stderr); on a miss return NULL; on success return the
pointer and the stored size. -/
def handle_table_lookup (t : HandleTable) (zone_id handle : Nat) :
    Option (Nat × Nat) :=
  match findEntry t.entries handle with
  | none => none
  | some e => if e.zone_id ≠ zone_id then none else some (e.ptr, e.size)

/-- handle_table_remove (handle_table.c lines 126-164): like lookup,
but on success unlink the entry and decrement the counters (uint64
wraparound).  Failure paths leave the table untouched. -/
def handle_table_remove (t : HandleTable) (zone_id handle : Nat) :
    Option Nat × HandleTable :=
  match findEntry t.entries handle with
  | none => (none, t)
  | some e =>
    if e.zone_id ≠ zone_id then (none, t)
    else
      (some e.ptr,
       { t with entries := eraseFirst t.entries handle,
                total_handles := u64sub t.total_handles 1,
                total_memory := u64sub t.total_memory e.size })

/- ==========================================================================
   Driver dispatcher handlers (src/gpu-proxy/handlers.c)
   ========================================================================== -/

/-- The RESPONSE_OK payload as actually put on the wire by
send_response_ok (handlers.c lines 60-91): the data_len field is set
from the argument, but the message is built with payload_len =
sizeof(struct idm_response_ok) and the data argument is never
appended ("For now, no additional data support"), so the trailing
byte region is always empty. -/
structure ResponseOk where
  request_seq : Nat
  result_handle : Nat
  result_value : Nat
  data_len : Nat
  trailing : List Nat
deriving DecidableEq

/-- send_response_ok: build the OK payload; data bytes are dropped. -/
def send_response_ok (request_seq result_handle : Nat)
    (_data : Option (List Nat)) (data_len : Nat) : ResponseOk :=
  { request_seq := request_seq, result_handle := result_handle,
    result_value := 0, data_len := data_len, trailing := [] }

/-- The response a handler emits to the requesting zone. -/
inductive HandlerResult where
  | okResp (r : ResponseOk)
  | errResp (request_seq error_code cuda_error : Nat)
deriving DecidableEq

/-- handle_gpu_free (handlers.c lines 185-229).  backendFree is the
CUresult cuMemFree returns when it is reached.  Returns the response
and the handle-table state after the handler. -/
def handle_gpu_free (t : HandleTable) (zone_id seq handle backendFree : Nat) :
    HandlerResult × HandleTable :=
  match handle_table_remove t zone_id handle with
  | (none, t1) =>
    (.errResp seq IDM_ERROR_INVALID_HANDLE 0, t1)
  | (some _, t1) =>
    if backendFree ≠ CUDA_SUCCESS then
      (.errResp seq IDM_ERROR_CUDA_ERROR backendFree, t1)
    else
      (.okResp (send_response_ok seq 0 none 0), t1)

/-- Outcome of a copy handler: the response sent, and the backend copy
call if one was made (device address mod 2^64, byte count). -/
structure CopyOutcome where
  resp : HandlerResult
  backendCall : Option (Nat × Nat)
deriving DecidableEq

/-- handle_gpu_copy_h2d (handlers.c lines 234-299).  dst_offset and
size are uint64 request fields; the bounds check computes
dst_offset + size in wrapping uint64 arithmetic.  backendRes is the
CUresult of cuMemcpyHtoD when it is reached. -/
def handle_gpu_copy_h2d (t : HandleTable)
    (zone_id seq dst_handle dst_offset size backendRes : Nat) : CopyOutcome :=
  match handle_table_lookup t zone_id dst_handle with
  | none => ⟨.errResp seq IDM_ERROR_INVALID_HANDLE 0, none⟩
  | some (ptr, alloc_size) =>
    if alloc_size < (dst_offset + size) % U64 then
      ⟨.errResp seq IDM_ERROR_INVALID_SIZE 0, none⟩
    else
      let dst := (ptr + dst_offset) % U64
      if backendRes ≠ CUDA_SUCCESS then
        ⟨.errResp seq IDM_ERROR_CUDA_ERROR backendRes, some (dst, size)⟩
      else
        ⟨.okResp (send_response_ok seq 0 none 0), some (dst, size)⟩

/-- Outcome of the D2H handler: response, backend call, and whether the
staging buffer holding the device bytes was freed inside the handler
(it always is on every path that allocated it). -/
structure D2HOutcome where
  resp : HandlerResult
  backendCall : Option (Nat × Nat)
  stagedFreed : Bool
deriving DecidableEq

/-- handle_gpu_copy_d2h (handlers.c lines 304-384).  The staging malloc
is assumed to succeed.  On backend success the code frees the staging
buffer and sends send_response_ok(zone, seq, 0, NULL, 0): the device
bytes are never placed in the response. -/
def handle_gpu_copy_d2h (t : HandleTable)
    (zone_id seq src_handle src_offset size backendRes : Nat) : D2HOutcome :=
  match handle_table_lookup t zone_id src_handle with
  | none => ⟨.errResp seq IDM_ERROR_INVALID_HANDLE 0, none, false⟩
  | some (ptr, alloc_size) =>
    if alloc_size < (src_offset + size) % U64 then
      ⟨.errResp seq IDM_ERROR_INVALID_SIZE 0, none, false⟩
    else
      let src := (ptr + src_offset) % U64
      if backendRes ≠ CUDA_SUCCESS then
        ⟨.errResp seq IDM_ERROR_CUDA_ERROR backendRes, some (src, size), true⟩
      else
        ⟨.okResp (send_response_ok seq 0 none 0), some (src, size), true⟩

/- ==========================================================================
   User-side correlator and CUDA shim (src/gpu-proxy/libvgpu/libvgpu.c)
   ========================================================================== -/

/-- A response message as seen by the correlator loop. -/
inductive RespMsg where
  | ok (r : ResponseOk)
  | err (request_seq error_code cuda_error : Nat)
deriving DecidableEq

/-- The error-translation switch in send_and_wait (libvgpu.c lines
93-100): OUT_OF_MEMORY and INVALID_HANDLE have cases of their own,
everything else (PERMISSION_DENIED included) takes the default. -/
def translate_idm_error (code : Nat) : Nat :=
  if code = IDM_ERROR_OUT_OF_MEMORY then CUDA_ERROR_OUT_OF_MEMORY
  else if code = IDM_ERROR_INVALID_HANDLE then CUDA_ERROR_INVALID_HANDLE
  else CUDA_ERROR_INVALID_VALUE

/-- One iteration of the send_and_wait receive loop (libvgpu.c lines
68-105) applied to a received response: some result ends the loop,
none discards the message and keeps waiting. -/
def send_and_wait_step (req_seq : Nat) (resp : RespMsg) : Option Nat :=
  match resp with
  | .ok r => if r.request_seq = req_seq then some CUDA_SUCCESS else none
  | .err s code _ => if s = req_seq then some (translate_idm_error code) else none

/-- The translation mandated by the spec sentence for C4, written from
the spec words: OUT_OF_MEMORY to out-of-memory, INVALID_HANDLE to
invalid-handle, PERMISSION_DENIED to invalid-handle, all others to the
invalid-value default.  Compared against the code's translation. -/
def spec_error_translation (code : Nat) : Nat :=
  if code = IDM_ERROR_OUT_OF_MEMORY then CUDA_ERROR_OUT_OF_MEMORY
  else if code = IDM_ERROR_INVALID_HANDLE then CUDA_ERROR_INVALID_HANDLE
  else if code = IDM_ERROR_PERMISSION_DENIED then CUDA_ERROR_INVALID_HANDLE
  else CUDA_ERROR_INVALID_VALUE

/-- The amended translation: PERMISSION_DENIED falls through to the
invalid-value default like every other unlisted code. -/
def amended_error_translation (code : Nat) : Nat :=
  if code = IDM_ERROR_OUT_OF_MEMORY then CUDA_ERROR_OUT_OF_MEMORY
  else if code = IDM_ERROR_INVALID_HANDLE then CUDA_ERROR_INVALID_HANDLE
  else if code = IDM_ERROR_PERMISSION_DENIED then CUDA_ERROR_INVALID_VALUE
  else CUDA_ERROR_INVALID_VALUE

/-- cuMemcpyDtoH (libvgpu.c lines 447-484).  inited is the library
init flag, dstHostNull tells whether the destination pointer is NULL,
remoteRes is what send_and_wait returned for the COPY_D2H request, and
dstBuf the destination buffer contents.  On success the code runs
memset(dstHost, 0, ByteCount) — the first ByteCount bytes become 0
("TODO: Actually receive the data back"). -/
def cuMemcpyDtoH (inited dstHostNull : Bool) (srcDevice byteCount : Nat)
    (remoteRes : Nat) (dstBuf : List Nat) : Nat × List Nat :=
  if ¬ inited then (CUDA_ERROR_NOT_INITIALIZED, dstBuf)
  else if dstHostNull ∨ srcDevice = 0 ∨ byteCount = 0 then
    (CUDA_ERROR_INVALID_VALUE, dstBuf)
  else if remoteRes = CUDA_SUCCESS then
    (CUDA_SUCCESS, List.replicate byteCount 0 ++ dstBuf.drop byteCount)
  else (remoteRes, dstBuf)

/- ==========================================================================
   FIFO abstraction for the ring (used by the transport claims)
   ========================================================================== -/

/-- Repeated idm_send over a list of messages, stopping at the first
failure. -/
def sendList : IdmRing → List IdmMessage → Option IdmRing
  | r, [] => some r
  | r, m :: ms =>
    let res := idm_send r m
    if res.1 = 0 then sendList res.2 ms else none

/-- Repeated idm_recv, collecting the received messages, stopping at
the first failure. -/
def recvList : IdmRing → Nat → Option (List IdmMessage × IdmRing)
  | r, 0 => some ([], r)
  | r, n + 1 =>
    match idm_recv r with
    | (res, some m, r2) =>
      if res = 0 then
        match recvList r2 n with
        | some (ms, r3) => some (m :: ms, r3)
        | none => none
      else none
    | (_, none, _) => none

/-- The ring r represents the pending queue q: the unsigned index
distance equals the queue length and the slots from the consumer
onwards hold the queued messages in order. -/
def ringRep (r : IdmRing) (q : List IdmMessage) : Prop :=
  r.producer < U32 ∧ r.consumer < U32 ∧
  r.entries.length = IDM_RING_SIZE ∧
  q.length = u32sub r.producer r.consumer ∧
  q.length ≤ IDM_RING_SIZE ∧
  ∀ i, i < q.length →
    r.entries.getD ((r.consumer + i) % IDM_RING_SIZE) default = q.getD i default

/- ==========================================================================
   Helper lemmas
   ========================================================================== -/

/-- Copying idm_message_size bytes of a message whose buffer holds
exactly payload_len payload bytes reproduces the message. -/
theorem storedMessage_of_wf (m : IdmMessage) (h : idm_message_wf m) :
    storedMessage m = m := by
  unfold storedMessage
  unfold idm_message_wf at h
  cases m with
  | mk header payload =>
    simp only [IdmMessage.mk.injEq, true_and]
    simpa using List.take_of_length_le (by simp [h])

theorem getD_set_self (l : List α) (i : Nat) (hi : i < l.length) (a d : α) :
    (l.set i a).getD i d = a := by
  rw [List.getD_eq_getElem _ _ (by simpa using hi)]
  exact List.getElem_set_self _

theorem getD_set_ne (l : List α) (i j : Nat) (hij : i ≠ j) (a d : α) :
    (l.set i a).getD j d = l.getD j d := by
  by_cases hj : j < l.length
  · rw [List.getD_eq_getElem _ _ (by simpa using hj),
        List.getD_eq_getElem _ _ hj]
    exact List.getElem_set_ne hij _
  · rw [List.getD_eq_default _ _ (by simpa using Nat.le_of_not_lt hj),
        List.getD_eq_default _ _ (Nat.le_of_not_lt hj)]

theorem getD_append_len (q : List α) (a d : α) :
    (q ++ [a]).getD q.length d = a := by
  rw [List.getD_append_right _ _ _ _ (Nat.le_refl _)]
  simp

/- ==========================================================================
   Claim theorems
   ========================================================================== -/

/-- C1: for a zone z and a handle h that z does not own — h absent from
the table, or live with a different owner — the requester-visible
outcome is the same fixed value in both cases: lookup returns NULL,
remove returns NULL leaving the table unchanged, and the FREE handler
responds with error code INVALID_HANDLE leaving the table unchanged. -/
theorem C1_unowned_handle_indistinguishable
    (t : HandleTable) (z h seq fr : Nat)
    (hcase : findEntry t.entries h = none ∨
             ∃ e, findEntry t.entries h = some e ∧ e.zone_id ≠ z) :
    handle_table_lookup t z h = none ∧
    handle_table_remove t z h = (none, t) ∧
    handle_gpu_free t z seq h fr =
      (.errResp seq IDM_ERROR_INVALID_HANDLE 0, t) := by
  have hrm : handle_table_remove t z h = (none, t) := by
    unfold handle_table_remove
    rcases hcase with hn | ⟨e, he, hz⟩
    · rw [hn]
    · rw [he]; simp [hz]
  have hlk : handle_table_lookup t z h = none := by
    unfold handle_table_lookup
    rcases hcase with hn | ⟨e, he, hz⟩
    · rw [hn]
    · rw [he]; simp [hz]
  refine ⟨hlk, hrm, ?_⟩
  unfold handle_gpu_free
  rw [hrm]

/-- Witness for C1: zone 2 queries handle 5 which zone 1 owns. -/
theorem C1_witness :
    handle_table_lookup ⟨[⟨5, 1, 77, 64⟩], 6, 1, 64⟩ 2 5 = none ∧
    handle_table_remove ⟨[⟨5, 1, 77, 64⟩], 6, 1, 64⟩ 2 5 =
      (none, ⟨[⟨5, 1, 77, 64⟩], 6, 1, 64⟩) ∧
    handle_gpu_free ⟨[⟨5, 1, 77, 64⟩], 6, 1, 64⟩ 2 9 5 0 =
      (.errResp 9 IDM_ERROR_INVALID_HANDLE 0, ⟨[⟨5, 1, 77, 64⟩], 6, 1, 64⟩) :=
  C1_unowned_handle_indistinguishable ⟨[⟨5, 1, 77, 64⟩], 6, 1, 64⟩ 2 5 9 0
    (Or.inr ⟨⟨5, 1, 77, 64⟩, by decide, by decide⟩)

/-- C2: the claim fails on the code.  Zone 1 owns handle 1 with
alloc_size = 4096; a COPY_H2D request with dst_offset = 2^64 - 4096
and size = 4106 has offset + size > alloc_size, yet the uint64 bounds
check wraps ((dst_offset + size) mod 2^64 = 10 ≤ 4096), so the
dispatcher invokes the backend copy (at the wrapped device address 0)
and responds OK instead of INVALID_SIZE. -/
theorem C2_bounds_overflow_eval :
    18446744073709547520 + 4106 > 4096 ∧
    handle_gpu_copy_h2d ⟨[⟨1, 1, 4096, 4096⟩], 2, 1, 4096⟩ 1 7 1
        18446744073709547520 4106 CUDA_SUCCESS =
      ⟨.okResp ⟨7, 0, 0, 0, []⟩, some (0, 4106)⟩ := by
  constructor
  · decide
  · decide

/-- C3: the claim fails on the code.  A successful COPY_D2H of 16
bytes (zone 1, handle 1, offset 0, alloc_size 64) produces a
RESPONSE_OK whose data_len field is 0, not 16, and whose trailing data
region is empty: the device bytes are never sent. -/
theorem C3_d2h_ok_carries_no_data_eval :
    handle_gpu_copy_d2h ⟨[⟨1, 1, 4096, 64⟩], 2, 1, 64⟩ 1 7 1 0 16 CUDA_SUCCESS =
      ⟨.okResp ⟨7, 0, 0, 0, []⟩, some (4096, 16), true⟩ ∧
    (0 : Nat) ≠ 16 := by
  constructor
  · decide
  · decide

/-- C4 counterexample: a matching RESPONSE_ERROR with code
PERMISSION_DENIED is translated by send_and_wait to
CUDA_ERROR_INVALID_VALUE, not to the caller's invalid-handle error as
the claim (and the spec-side mapping) state. -/
theorem C4_permission_denied_counterexample :
    send_and_wait_step 7 (.err 7 IDM_ERROR_PERMISSION_DENIED 0) =
      some CUDA_ERROR_INVALID_VALUE ∧
    spec_error_translation IDM_ERROR_PERMISSION_DENIED =
      CUDA_ERROR_INVALID_HANDLE ∧
    CUDA_ERROR_INVALID_VALUE ≠ CUDA_ERROR_INVALID_HANDLE := by
  refine ⟨by decide, by decide, by decide⟩

/-- C4 amended: for every RESPONSE_ERROR whose request_seq matches the
outstanding request, the code translates OUT_OF_MEMORY to the caller's
out-of-memory error, INVALID_HANDLE to the caller's invalid-handle
error, and every other code — PERMISSION_DENIED included — to the
caller's invalid-value default. -/
theorem C4_error_translation_amended (req_seq code cuda_err : Nat) :
    send_and_wait_step req_seq (.err req_seq code cuda_err) =
      some (amended_error_translation code) := by
  unfold send_and_wait_step translate_idm_error amended_error_translation
  simp only [if_pos rfl]
  split_ifs <;> rfl

/-- C8: a successful insert of a non-null pointer returns a handle
h > 0, a remove of that handle by the same zone returns exactly the
inserted pointer, and afterwards the entry list and both counters are
back at their pre-insert values (only next_handle has advanced: the
counter is not recycled).  The uint64 counter hypotheses say the
counters hold uint64 values and the insert is the one that returned a
nonzero handle. -/
theorem C8_insert_remove_roundtrip
    (t : HandleTable) (z p s : Nat) (hp : p ≠ 0) (hnz : t.next_handle ≠ 0)
    (hth : t.total_handles < U64) (htm : t.total_memory < U64) (hs : s < U64) :
    0 < (handle_table_insert t z p s).1 ∧
    handle_table_remove (handle_table_insert t z p s).2 z
        (handle_table_insert t z p s).1 =
      (some p,
       { entries := t.entries,
         next_handle := (t.next_handle + 1) % U64,
         total_handles := t.total_handles,
         total_memory := t.total_memory }) := by
  have hins : handle_table_insert t z p s =
      (t.next_handle,
       { entries := ⟨t.next_handle, z, p, s⟩ :: t.entries,
         next_handle := (t.next_handle + 1) % U64,
         total_handles := (t.total_handles + 1) % U64,
         total_memory := (t.total_memory + s) % U64 }) := by
    unfold handle_table_insert
    rw [if_neg hp]
  rw [hins]
  refine ⟨Nat.pos_of_ne_zero hnz, ?_⟩
  have hfind : findEntry (⟨t.next_handle, z, p, s⟩ :: t.entries) t.next_handle =
      some ⟨t.next_handle, z, p, s⟩ := by
    unfold findEntry
    rw [if_pos rfl]
  have herase : eraseFirst (⟨t.next_handle, z, p, s⟩ :: t.entries) t.next_handle =
      t.entries := by
    unfold eraseFirst
    rw [if_pos rfl]
  unfold handle_table_remove
  rw [hfind]
  simp only [ne_eq, not_true_eq_false, if_false, herase, Prod.mk.injEq,
    HandleTable.mk.injEq]
  refine ⟨trivial, trivial, trivial, ?_, ?_⟩
  · unfold u64sub U64 at *
    omega
  · unfold u64sub U64 at *
    omega

/-- Witness for C8 at the freshly initialized table. -/
theorem C8_witness :
    0 < (handle_table_insert handle_table_init 3 42 100).1 ∧
    handle_table_remove (handle_table_insert handle_table_init 3 42 100).2 3
        (handle_table_insert handle_table_init 3 42 100).1 =
      (some 42,
       { entries := handle_table_init.entries,
         next_handle := (handle_table_init.next_handle + 1) % U64,
         total_handles := handle_table_init.total_handles,
         total_memory := handle_table_init.total_memory }) :=
  C8_insert_remove_roundtrip handle_table_init 3 42 100
    (by decide) (by decide) (by decide) (by decide) (by decide)

/-- C9: when the removal inside handle_gpu_free succeeds and the
backend free then fails, the dispatcher emits a CUDA_ERROR error
response, yet the handler leaves the table in the post-removal state
t1: the entry is already unlinked and the live-handle counter already
decremented, with no rollback. -/
theorem C9_free_error_after_removal
    (t t1 : HandleTable) (z seq h fr p : Nat)
    (hrem : handle_table_remove t z h = (some p, t1))
    (hfr : fr ≠ CUDA_SUCCESS) :
    handle_gpu_free t z seq h fr =
      (.errResp seq IDM_ERROR_CUDA_ERROR fr, t1) ∧
    t1.entries = eraseFirst t.entries h ∧
    t1.total_handles = u64sub t.total_handles 1 ∧
    ∃ e, findEntry t.entries h = some e ∧ e.zone_id = z ∧ p = e.ptr ∧
      t1.total_memory = u64sub t.total_memory e.size := by
  have hresp : handle_gpu_free t z seq h fr =
      (.errResp seq IDM_ERROR_CUDA_ERROR fr, t1) := by
    unfold handle_gpu_free
    rw [hrem]
    simp [hfr]
  refine ⟨hresp, ?_⟩
  unfold handle_table_remove at hrem
  cases hfind : findEntry t.entries h with
  | none =>
    rw [hfind] at hrem
    simp at hrem
  | some e =>
    rw [hfind] at hrem
    by_cases hz : e.zone_id = z
    · simp only [hz, ne_eq, not_true_eq_false, if_false, Prod.mk.injEq,
        Option.some.injEq] at hrem
      obtain ⟨h1, h2⟩ := hrem
      refine ⟨by rw [← h2], by rw [← h2], e, rfl, hz, h1.symm, by rw [← h2]⟩
    · simp [hz] at hrem

/-- Witness for C9: zone 1 frees its handle 5 and the backend free
fails with CUDA error 8. -/
theorem C9_witness :
    handle_gpu_free ⟨[⟨5, 1, 77, 64⟩], 6, 1, 64⟩ 1 9 5 8 =
      (.errResp 9 IDM_ERROR_CUDA_ERROR 8,
       ⟨[], 6, u64sub 1 1, u64sub 64 64⟩) ∧
    ([] : List HandleEntry) = eraseFirst [⟨5, 1, 77, 64⟩] 5 ∧
    u64sub 1 1 = u64sub 1 1 ∧
    ∃ e, findEntry [⟨5, 1, 77, 64⟩] 5 = some e ∧ e.zone_id = 1 ∧ 77 = e.ptr ∧
      u64sub 64 64 = u64sub 64 e.size :=
  C9_free_error_after_removal ⟨[⟨5, 1, 77, 64⟩], 6, 1, 64⟩
    ⟨[], 6, u64sub 1 1, u64sub 64 64⟩ 1 9 5 8 77 (by decide) (by decide)

/-- C10: whenever the user-side cuMemcpyDtoH returns CUDA_SUCCESS, the
first ByteCount bytes of the destination buffer are zero — the device
contents never reach it — and on the driver side a successful
COPY_D2H handler run frees the staging buffer and sends an OK response
whose data region is empty, so the staged device bytes are never
transmitted. -/
theorem C10_dtoh_zero_fill
    (inited dstHostNull : Bool) (srcDevice byteCount remoteRes : Nat)
    (dstBuf : List Nat)
    (hsucc : (cuMemcpyDtoH inited dstHostNull srcDevice byteCount
        remoteRes dstBuf).1 = CUDA_SUCCESS)
    (t : HandleTable) (z seq handle offset ptr alloc : Nat)
    (hlk : handle_table_lookup t z handle = some (ptr, alloc))
    (hbd : (offset + byteCount) % U64 ≤ alloc) :
    (cuMemcpyDtoH inited dstHostNull srcDevice byteCount
        remoteRes dstBuf).2.take byteCount = List.replicate byteCount 0 ∧
    handle_gpu_copy_d2h t z seq handle offset byteCount CUDA_SUCCESS =
      ⟨.okResp ⟨seq, 0, 0, 0, []⟩, some ((ptr + offset) % U64, byteCount), true⟩ := by
  constructor
  · unfold cuMemcpyDtoH at hsucc ⊢
    split_ifs at hsucc ⊢ <;>
      simp_all [CUDA_SUCCESS, CUDA_ERROR_NOT_INITIALIZED, CUDA_ERROR_INVALID_VALUE,
        List.take_left', List.length_replicate]
  · unfold handle_gpu_copy_d2h
    rw [hlk]
    simp only [Nat.not_lt.mpr hbd, if_false]
    simp [send_response_ok]

/-- Witness for C10: a 4-byte D2H on a buffer previously holding
9s, with zone 1 owning handle 1 (alloc_size 64, device pointer 4096). -/
theorem C10_witness :
    (cuMemcpyDtoH true false 1 4 0 [9, 9, 9, 9, 9]).2.take 4 =
      List.replicate 4 0 ∧
    handle_gpu_copy_d2h ⟨[⟨1, 1, 4096, 64⟩], 2, 1, 64⟩ 1 7 1 0 4 CUDA_SUCCESS =
      ⟨.okResp ⟨7, 0, 0, 0, []⟩, some ((4096 + 0) % U64, 4), true⟩ :=
  C10_dtoh_zero_fill true false 1 4 0 [9, 9, 9, 9, 9] (by decide)
    ⟨[⟨1, 1, 4096, 64⟩], 2, 1, 64⟩ 1 7 1 0 4096 64 (by decide) (by decide)

/-- idm_send refuses an invalid message. -/
theorem idm_send_invalid (r : IdmRing) (msg : IdmMessage)
    (hv : ¬ idm_message_valid msg) : idm_send r msg = (-EINVAL, r) := by
  unfold idm_send
  rw [if_pos hv]

/-- idm_send refuses a message larger than a ring slot. -/
theorem idm_send_large (r : IdmRing) (msg : IdmMessage)
    (hv : idm_message_valid msg)
    (hs : IDM_RING_ENTRY_SIZE < idm_message_size msg) :
    idm_send r msg = (-EINVAL, r) := by
  unfold idm_send
  rw [if_neg (not_not_intro hv), if_pos hs]

/-- idm_send fails with -ENOSPC on a full ring. -/
theorem idm_send_full (r : IdmRing) (msg : IdmMessage)
    (hv : idm_message_valid msg)
    (hs : idm_message_size msg ≤ IDM_RING_ENTRY_SIZE)
    (hf : IDM_RING_SIZE ≤ u32sub r.producer r.consumer) :
    idm_send r msg = (-ENOSPC, r) := by
  unfold idm_send
  rw [if_neg (not_not_intro hv), if_neg (Nat.not_lt.mpr hs)]
  simp only [if_pos hf]

/-- idm_send succeeds on a non-full ring: the message is copied into
the slot at producer mod RING_SIZE and producer + 1 is published. -/
theorem idm_send_ok (r : IdmRing) (msg : IdmMessage)
    (hv : idm_message_valid msg)
    (hs : idm_message_size msg ≤ IDM_RING_ENTRY_SIZE)
    (hf : u32sub r.producer r.consumer < IDM_RING_SIZE) :
    idm_send r msg =
      (0, { r with
            entries := r.entries.set (r.producer % IDM_RING_SIZE)
              (storedMessage msg),
            producer := (r.producer + 1) % U32 }) := by
  unfold idm_send
  rw [if_neg (not_not_intro hv), if_neg (Nat.not_lt.mpr hs)]
  simp only [if_neg (Nat.not_le.mpr hf)]

/-- idm_recv on an empty ring returns -EAGAIN. -/
theorem idm_recv_empty (r : IdmRing) (he : r.consumer = r.producer) :
    idm_recv r = (-EAGAIN, none, r) := by
  unfold idm_recv
  simp only [if_pos he]

/-- idm_recv on an invalid current slot advances the consumer by 1 and
surfaces -EINVAL. -/
theorem idm_recv_invalid_slot (r : IdmRing) (he : r.consumer ≠ r.producer)
    (hv : ¬ idm_message_valid
      (r.entries.getD (r.consumer % IDM_RING_SIZE) default)) :
    idm_recv r = (-EINVAL, none,
      { r with consumer := (r.consumer + 1) % U32 }) := by
  unfold idm_recv
  simp only [if_neg he, if_pos hv]

/-- idm_recv on a valid current slot copies the message out and
advances the consumer by 1. -/
theorem idm_recv_ok (r : IdmRing) (he : r.consumer ≠ r.producer)
    (hv : idm_message_valid
      (r.entries.getD (r.consumer % IDM_RING_SIZE) default)) :
    idm_recv r =
      (0, some (storedMessage (r.entries.getD (r.consumer % IDM_RING_SIZE) default)),
       { r with consumer := (r.consumer + 1) % U32 }) := by
  unfold idm_recv
  simp only [if_neg he, if_neg (not_not_intro hv)]

/-- The zero-initialized ring satisfies the ring invariant. -/
theorem ringInv_init : RingInv initRing := by
  unfold RingInv initRing u32sub U32 IDM_RING_SIZE
  refine ⟨by norm_num, by norm_num, by norm_num, by simp⟩

/-- idm_send preserves the ring invariant. -/
theorem ringInv_send (r : IdmRing) (msg : IdmMessage) (h : RingInv r) :
    RingInv (idm_send r msg).2 := by
  obtain ⟨h1, h2, h3, h4⟩ := h
  by_cases hv : idm_message_valid msg
  · by_cases hs : idm_message_size msg ≤ IDM_RING_ENTRY_SIZE
    · by_cases hf : IDM_RING_SIZE ≤ u32sub r.producer r.consumer
      · rw [idm_send_full r msg hv hs hf]
        exact ⟨h1, h2, h3, h4⟩
      · rw [idm_send_ok r msg hv hs (Nat.lt_of_not_le hf)]
        refine ⟨?_, h2, ?_, by simpa using h4⟩
        · show (r.producer + 1) % U32 < U32
          unfold U32
          omega
        · show u32sub ((r.producer + 1) % U32) r.consumer ≤ IDM_RING_SIZE
          unfold IDM_RING_SIZE u32sub U32 at *
          omega
    · rw [idm_send_large r msg hv (Nat.lt_of_not_le hs)]
      exact ⟨h1, h2, h3, h4⟩
  · rw [idm_send_invalid r msg hv]
    exact ⟨h1, h2, h3, h4⟩

/-- idm_recv preserves the ring invariant. -/
theorem ringInv_recv (r : IdmRing) (h : RingInv r) :
    RingInv (idm_recv r).2.2 := by
  obtain ⟨h1, h2, h3, h4⟩ := h
  by_cases he : r.consumer = r.producer
  · rw [idm_recv_empty r he]
    exact ⟨h1, h2, h3, h4⟩
  · by_cases hv : idm_message_valid
        (r.entries.getD (r.consumer % IDM_RING_SIZE) default)
    · rw [idm_recv_ok r he hv]
      refine ⟨h1, ?_, ?_, h4⟩
      · show (r.consumer + 1) % U32 < U32
        unfold U32
        omega
      · show u32sub r.producer ((r.consumer + 1) % U32) ≤ IDM_RING_SIZE
        unfold IDM_RING_SIZE u32sub U32 at *
        omega
    · rw [idm_recv_invalid_slot r he hv]
      refine ⟨h1, ?_, ?_, h4⟩
      · show (r.consumer + 1) % U32 < U32
        unfold U32
        omega
      · show u32sub r.producer ((r.consumer + 1) % U32) ≤ IDM_RING_SIZE
        unfold IDM_RING_SIZE u32sub U32 at *
        omega

/-- Every reachable ring state satisfies the ring invariant. -/
theorem ringInv_of_reachable (r : IdmRing) (h : RingReachable r) : RingInv r := by
  induction h with
  | init => exact ringInv_init
  | send msg _ ih => exact ringInv_send _ msg ih
  | recv _ ih => exact ringInv_recv _ ih

/-- C5: every ring state reachable from the zero-initialized ring by
send/receive satisfies 0 ≤ producer - consumer ≤ RING_SIZE in unsigned
32-bit arithmetic; and on any state satisfying that invariant,
idm_send of a valid, slot-sized message fails with the ring-full error
-ENOSPC (leaving the ring unchanged) exactly when producer - consumer
(unsigned) equals RING_SIZE, and otherwise succeeds, copying the whole
message into entries[producer mod RING_SIZE] and publishing
producer + 1. -/
theorem C5_ring_full_iff_and_invariant :
    (∀ r, RingReachable r → RingInv r) ∧
    (∀ r msg, RingInv r → idm_message_valid msg →
      idm_message_size msg ≤ IDM_RING_ENTRY_SIZE → idm_message_wf msg →
      (((idm_send r msg).1 = -ENOSPC ∧ (idm_send r msg).2 = r) ↔
        u32sub r.producer r.consumer = IDM_RING_SIZE) ∧
      (u32sub r.producer r.consumer ≠ IDM_RING_SIZE →
        idm_send r msg =
          (0, { r with
                entries := r.entries.set (r.producer % IDM_RING_SIZE) msg,
                producer := (r.producer + 1) % U32 }))) := by
  refine ⟨ringInv_of_reachable, ?_⟩
  intro r msg hinv hv hs hwf
  obtain ⟨h1, h2, h3, h4⟩ := hinv
  by_cases hf : u32sub r.producer r.consumer = IDM_RING_SIZE
  · have hsend := idm_send_full r msg hv hs (Nat.le_of_eq hf.symm)
    refine ⟨⟨fun _ => hf, fun _ => by rw [hsend]; exact ⟨rfl, rfl⟩⟩, fun hne => absurd hf hne⟩
  · have hlt : u32sub r.producer r.consumer < IDM_RING_SIZE := by
      omega
    have hsend := idm_send_ok r msg hv hs hlt
    rw [storedMessage_of_wf msg hwf] at hsend
    refine ⟨⟨?_, fun heq => absurd heq hf⟩, fun _ => hsend⟩
    intro hres
    rw [hsend] at hres
    have h0 : (0 : Int) = -ENOSPC := hres.1
    exact absurd h0 (by decide)

/-- Witness for C5: the initial ring is reachable and satisfies the
invariant, and a send of a small valid message on it succeeds. -/
theorem C5_witness :
    RingInv initRing ∧
    (idm_send initRing ⟨⟨IDM_MAGIC, IDM_VERSION, 1, 2, 1, 1, 0, 0⟩, []⟩ =
      (0, { initRing with
            entries := initRing.entries.set (initRing.producer % IDM_RING_SIZE)
              ⟨⟨IDM_MAGIC, IDM_VERSION, 1, 2, 1, 1, 0, 0⟩, []⟩,
            producer := (initRing.producer + 1) % U32 })) :=
  ⟨C5_ring_full_iff_and_invariant.1 initRing RingReachable.init,
   (C5_ring_full_iff_and_invariant.2 initRing
      ⟨⟨IDM_MAGIC, IDM_VERSION, 1, 2, 1, 1, 0, 0⟩, []⟩
      (C5_ring_full_iff_and_invariant.1 initRing RingReachable.init)
      (by decide) (by decide) (by decide)).2 (by decide)⟩

/-- C7: a message with wrong magic, wrong version, or oversized
payload_len is rejected by both paths: idm_send refuses it with
-EINVAL leaving the ring untouched, and idm_recv, finding it in the
current slot of a non-empty ring, advances the consumer index by
exactly 1 past the slot and surfaces -EINVAL, delivering no message
and leaving the rest of the ring state unchanged. -/
theorem C7_invalid_message_rejected
    (msg : IdmMessage) (r : IdmRing) (hinv : ¬ idm_message_valid msg) :
    idm_send r msg = (-EINVAL, r) ∧
    (r.consumer ≠ r.producer →
      r.entries.getD (r.consumer % IDM_RING_SIZE) default = msg →
      idm_recv r = (-EINVAL, none,
        { r with consumer := (r.consumer + 1) % U32 })) := by
  refine ⟨idm_send_invalid r msg hinv, ?_⟩
  intro hne hslot
  exact idm_recv_invalid_slot r hne (by rw [hslot]; exact hinv)

/-- Witness for C7: the all-zero message (magic 0) is refused by send,
and a ring whose current slot holds it surfaces -EINVAL from recv with
the consumer advanced by 1. -/
theorem C7_witness :
    idm_send { producer := 1, consumer := 0,
               entries := List.replicate IDM_RING_SIZE default } default =
      (-EINVAL, { producer := 1, consumer := 0,
                  entries := List.replicate IDM_RING_SIZE default }) ∧
    idm_recv { producer := 1, consumer := 0,
               entries := List.replicate IDM_RING_SIZE default } =
      (-EINVAL, none,
       { producer := 1, consumer := (0 + 1) % U32,
         entries := List.replicate IDM_RING_SIZE default }) := by
  have h := C7_invalid_message_rejected default
    { producer := 1, consumer := 0,
      entries := List.replicate IDM_RING_SIZE default } (by decide)
  exact ⟨h.1, h.2 (by decide) (by decide)⟩

/-- The zero-initialized ring represents the empty queue. -/
theorem ringRep_init : ringRep initRing [] := by
  unfold ringRep initRing u32sub U32 IDM_RING_SIZE
  refine ⟨by norm_num, by norm_num, by simp, by norm_num, by norm_num,
    fun i hi => absurd hi (by simp)⟩

/-- A successful send on a non-full represented ring appends the
stored message to the represented queue. -/
theorem ringRep_send (r : IdmRing) (q : List IdmMessage) (m : IdmMessage)
    (hrep : ringRep r q) (hv : idm_message_valid m)
    (hs : idm_message_size m ≤ IDM_RING_ENTRY_SIZE)
    (hql : q.length < IDM_RING_SIZE) :
    (idm_send r m).1 = 0 ∧
    ringRep (idm_send r m).2 (q ++ [storedMessage m]) := by
  obtain ⟨h1, h2, h3, h4, h5, h6⟩ := hrep
  have hlt : u32sub r.producer r.consumer < IDM_RING_SIZE := by omega
  have hsend := idm_send_ok r m hv hs hlt
  rw [hsend]
  refine ⟨rfl, ?_⟩
  have hpeq : r.producer % IDM_RING_SIZE =
      (r.consumer + q.length) % IDM_RING_SIZE := by
    unfold IDM_RING_SIZE u32sub U32 at *
    omega
  refine ⟨?_, h2, ?_, ?_, ?_, ?_⟩
  · show (r.producer + 1) % U32 < U32
    unfold U32
    omega
  · show (r.entries.set (r.producer % IDM_RING_SIZE)
      (storedMessage m)).length = IDM_RING_SIZE
    simpa using h3
  · show (q ++ [storedMessage m]).length =
      u32sub ((r.producer + 1) % U32) r.consumer
    simp only [List.length_append, List.length_cons, List.length_nil]
    unfold IDM_RING_SIZE u32sub U32 at *
    omega
  · show (q ++ [storedMessage m]).length ≤ IDM_RING_SIZE
    simp only [List.length_append, List.length_cons, List.length_nil]
    omega
  · intro i hi
    show (r.entries.set (r.producer % IDM_RING_SIZE) (storedMessage m)).getD
        ((r.consumer + i) % IDM_RING_SIZE) default =
      (q ++ [storedMessage m]).getD i default
    simp only [List.length_append, List.length_cons, List.length_nil] at hi
    by_cases hiL : i < q.length
    · have hne : r.producer % IDM_RING_SIZE ≠
          (r.consumer + i) % IDM_RING_SIZE := by
        rw [hpeq]
        unfold IDM_RING_SIZE at *
        omega
      rw [getD_set_ne _ _ _ hne, h6 i hiL, List.getD_append _ _ _ _ hiL]
    · have hig : i = q.length := by omega
      subst hig
      rw [hpeq]
      have hidx : (r.consumer + q.length) % IDM_RING_SIZE < r.entries.length := by
        rw [h3]
        unfold IDM_RING_SIZE
        omega
      rw [getD_set_self _ _ hidx, getD_append_len]

/-- A receive on a represented ring holding a valid message at its
head pops that message from the represented queue. -/
theorem ringRep_recv (r : IdmRing) (m : IdmMessage) (q : List IdmMessage)
    (hrep : ringRep r (m :: q)) (hv : idm_message_valid m) :
    idm_recv r = (0, some (storedMessage m),
      { r with consumer := (r.consumer + 1) % U32 }) ∧
    ringRep { r with consumer := (r.consumer + 1) % U32 } q := by
  obtain ⟨h1, h2, h3, h4, h5, h6⟩ := hrep
  have hslot : r.entries.getD (r.consumer % IDM_RING_SIZE) default = m := by
    have h0 := h6 0 (by simp)
    simpa using h0
  have hne : r.consumer ≠ r.producer := by
    intro hcp
    simp only [List.length_cons] at h4
    rw [hcp] at h4
    unfold u32sub U32 at h4
    omega
  have hrecv := idm_recv_ok r hne (by rw [hslot]; exact hv)
  rw [hslot] at hrecv
  refine ⟨hrecv, h1, ?_, h3, ?_, ?_, ?_⟩
  · show (r.consumer + 1) % U32 < U32
    unfold U32
    omega
  · show q.length = u32sub r.producer ((r.consumer + 1) % U32)
    simp only [List.length_cons] at h4
    unfold u32sub U32 at *
    omega
  · show q.length ≤ IDM_RING_SIZE
    simp only [List.length_cons] at h5
    omega
  · intro i hi
    show r.entries.getD (((r.consumer + 1) % U32 + i) % IDM_RING_SIZE) default =
      q.getD i default
    have hidx : ((r.consumer + 1) % U32 + i) % IDM_RING_SIZE =
        (r.consumer + (i + 1)) % IDM_RING_SIZE := by
      unfold IDM_RING_SIZE U32
      omega
    rw [hidx]
    have hsucc := h6 (i + 1) (by simp only [List.length_cons]; omega)
    simpa using hsucc

/-- Sending a list of valid, slot-sized, well-formed messages into a
represented ring with enough headroom succeeds and appends them to the
represented queue. -/
theorem sendList_rep (ms : List IdmMessage) (r : IdmRing) (q : List IdmMessage)
    (hrep : ringRep r q)
    (hms : ∀ m ∈ ms, idm_message_valid m ∧
      idm_message_size m ≤ IDM_RING_ENTRY_SIZE ∧ idm_message_wf m)
    (hlen : q.length + ms.length ≤ IDM_RING_SIZE) :
    ∃ r2, sendList r ms = some r2 ∧ ringRep r2 (q ++ ms) := by
  induction ms generalizing r q with
  | nil =>
    exact ⟨r, rfl, by simpa using hrep⟩
  | cons m ms ih =>
    obtain ⟨hv, hs, hwf⟩ := hms m (List.mem_cons_self m ms)
    have hql : q.length < IDM_RING_SIZE := by
      simp only [List.length_cons] at hlen
      omega
    have hsend := ringRep_send r q m hrep hv hs hql
    rw [storedMessage_of_wf m hwf] at hsend
    obtain ⟨r2, hsl, hrep2⟩ := ih (idm_send r m).2 (q ++ [m]) hsend.2
      (fun x hx => hms x (List.mem_cons_of_mem m hx))
      (by simp only [List.length_append, List.length_cons, List.length_nil] at *
          omega)
    refine ⟨r2, ?_, by simpa using hrep2⟩
    simp only [sendList, hsend.1, if_pos]
    exact hsl

/-- Receiving as many messages as a represented ring holds returns
exactly the represented queue, in order. -/
theorem recvList_rep (q : List IdmMessage) (r : IdmRing)
    (hrep : ringRep r q)
    (hq : ∀ m ∈ q, idm_message_valid m ∧ idm_message_wf m) :
    ∃ r2, recvList r q.length = some (q, r2) := by
  induction q generalizing r with
  | nil => exact ⟨r, rfl⟩
  | cons m q ih =>
    obtain ⟨hv, hwf⟩ := hq m (List.mem_cons_self m q)
    have h := ringRep_recv r m q hrep hv
    obtain ⟨r2, hr2⟩ := ih { r with consumer := (r.consumer + 1) % U32 } h.2
      (fun x hx => hq x (List.mem_cons_of_mem m hx))
    refine ⟨r2, ?_⟩
    show recvList r (q.length + 1) = some (m :: q, r2)
    simp [recvList, h.1, storedMessage_of_wf m hwf, hr2]

/-- C6: sending N ≤ RING_SIZE valid, slot-sized, well-formed messages
into the initially empty ring and then receiving N times succeeds at
every step and returns byte-for-byte the same messages in the order
they were sent. -/
theorem C6_fifo_roundtrip (ms : List IdmMessage)
    (hlen : ms.length ≤ IDM_RING_SIZE)
    (hms : ∀ m ∈ ms, idm_message_valid m ∧
      idm_message_size m ≤ IDM_RING_ENTRY_SIZE ∧ idm_message_wf m) :
    ∃ r r2, sendList initRing ms = some r ∧
      recvList r ms.length = some (ms, r2) := by
  obtain ⟨r, hsl, hrep⟩ := sendList_rep ms initRing [] ringRep_init hms
    (by simpa using hlen)
  obtain ⟨r2, hr2⟩ := recvList_rep ms r (by simpa using hrep)
    (fun m hm => ⟨(hms m hm).1, (hms m hm).2.2⟩)
  exact ⟨r, r2, hsl, hr2⟩

/-- Witness for C6: two concrete valid messages survive the
send-send-recv-recv round trip in order. -/
theorem C6_witness :
    ∃ r r2,
      sendList initRing
        [⟨⟨IDM_MAGIC, IDM_VERSION, 1, 2, 1, 1, 2, 0⟩, [10, 20]⟩,
         ⟨⟨IDM_MAGIC, IDM_VERSION, 16, 2, 1, 2, 1, 0⟩, [7]⟩] = some r ∧
      recvList r
        ([⟨⟨IDM_MAGIC, IDM_VERSION, 1, 2, 1, 1, 2, 0⟩, [10, 20]⟩,
          ⟨⟨IDM_MAGIC, IDM_VERSION, 16, 2, 1, 2, 1, 0⟩, [7]⟩] :
            List IdmMessage).length =
        some ([⟨⟨IDM_MAGIC, IDM_VERSION, 1, 2, 1, 1, 2, 0⟩, [10, 20]⟩,
               ⟨⟨IDM_MAGIC, IDM_VERSION, 16, 2, 1, 2, 1, 0⟩, [7]⟩], r2) :=
  C6_fifo_roundtrip
    [⟨⟨IDM_MAGIC, IDM_VERSION, 1, 2, 1, 1, 2, 0⟩, [10, 20]⟩,
     ⟨⟨IDM_MAGIC, IDM_VERSION, 16, 2, 1, 2, 1, 0⟩, [7]⟩]
    (by decide) (by decide)
